import Mathlib

/-!
Verification of the WakaWeather confidence engine
(`weather_confidence.py`) against its natural-language specification.

Numeric values that Python holds as floats are modelled as exact
rationals (`ℚ`); the one inherently irrational quantity, the population
standard deviation, lives in `ℝ` via `Real.sqrt`.  Python functions that
can raise, or that can return `None`, are modelled as `Option`-valued
functions, with `none` standing for both an absent result and an
absorbed exception (the source wraps every fallible body in a bare
`try/except` returning `None`).
-/

/-- A normalized forecast record, as built by each provider adapter:
keys `source`, `temp`, `rain`, `condition`, `wind` of the Python dict. -/
structure Forecast where
  source : String
  temp : ℚ
  rain : ℚ
  condition : String
  wind : ℚ
deriving DecidableEq, Repr

/-- Spec-side clamp: `clamp(x, lo, hi) = max lo (min x hi)`. -/
def clampQ (x lo hi : ℚ) : ℚ := max lo (min x hi)

/-- Embedding of `weighted_confidence(f1, f2)`:
`max(0, min(100 - (td * 4 + rd * 5), 100))` where `td`, `rd` are the
absolute temperature and rainfall differences. -/
def weighted_confidence (f1 f2 : Forecast) : ℚ :=
  max 0 (min (100 - (|f1.temp - f2.temp| * 4 + |f1.rain - f2.rain| * 5)) 100)

/-- Embedding of `confidence_label(s)`:
`"High" if s >= 85 else "Moderate" if s >= 60 else "Low"`. -/
def confidence_label (s : ℚ) : String :=
  if s ≥ 85 then "High" else if s ≥ 60 then "Moderate" else "Low"

/-- Python `str.lower()`, restricted to the ASCII case mapping (the
patterns the source searches for are ASCII). -/
def lowerStr (s : String) : String := String.mk (s.data.map Char.toLower)

/-- Character-list version of Python `str.startswith`. -/
def startsWithL : List Char → List Char → Bool
  | [], _ => true
  | _ :: _, [] => false
  | p :: ps, c :: cs => p == c && startsWithL ps cs

/-- Character-list version of Python `pat in s` (substring test). -/
def containsL (pat : List Char) : List Char → Bool
  | [] => startsWithL pat []
  | c :: cs => startsWithL pat (c :: cs) || containsL pat cs

/-- Python `pat in s` on strings. -/
def strContains (s pat : String) : Bool := containsL pat.data s.data

/-- Python `f-string` formatting `.1f` of a (nonnegative) value: the
value rounded to one decimal digit, printed as `intpart.fracdigit`. -/
def fmtOneDec (w : ℚ) : String :=
  let n : ℤ := round (w * 10)
  toString (n / 10) ++ "." ++ toString ((n % 10).natAbs)

/-- The fixed storm alert string of `detect_severe`. -/
def stormMsg : String := "⚠️ Storm or cyclone risk"

/-- The fixed heavy-rainfall alert string of `detect_severe`. -/
def heavyRainMsg : String := "⚠️ Heavy rainfall expected"

/-- The wind alert string of `detect_severe`:
`f"⚠️ Strong winds expected ({wind:.1f} m/s)"`. -/
def strongWindMsg (wind : ℚ) : String :=
  "⚠️ Strong winds expected (" ++ fmtOneDec wind ++ " m/s)"

/-- Python truthiness-guarded storm test
`cond and ("storm" in cond.lower() or "cyclone" in cond.lower())`:
`cond` is `None` or a string; a falsy `cond` (absent or empty) makes the
whole test falsy without the substring search being evaluated. -/
def condHasStormWord : Option String → Bool
  | none => false
  | some c =>
      (!(c == "")) &&
        (strContains (lowerStr c) "storm" || strContains (lowerStr c) "cyclone")

/-- Embedding of `detect_severe(cond, rain, wind)`: ordered rules, the
first match winning, returning the severity flag and optional alert. -/
def detect_severe (cond : Option String) (rain wind : ℚ) : Bool × Option String :=
  if condHasStormWord cond then (true, some stormMsg)
  else if rain > 10 then (true, some heavyRainMsg)
  else if wind > 10 then (true, some (strongWindMsg wind))
  else (false, none)

/-- Python `min(list)`: `none` on the empty list (where Python raises
`ValueError`), otherwise the left fold of binary `min` over the items. -/
def pyMin : List ℚ → Option ℚ
  | [] => none
  | x :: xs => some (xs.foldl min x)

/-- Python `max(list)`: `none` on the empty list (where Python raises
`ValueError`), otherwise the left fold of binary `max` over the items. -/
def pyMax : List ℚ → Option ℚ
  | [] => none
  | x :: xs => some (xs.foldl max x)

/-- Arithmetic mean, as computed inside `statistics.pstdev`. -/
def listMean (v : List ℚ) : ℚ := v.sum / v.length

/-- Population variance as computed inside `statistics.pstdev`:
the mean of the squared deviations from the mean. -/
def pvarianceQ (v : List ℚ) : ℚ :=
  ((v.map fun x => (x - listMean v) ^ 2).sum) / v.length

/-- Python `statistics.pstdev`: the square root of the population
variance. -/
noncomputable def pstdev (v : List ℚ) : ℝ := Real.sqrt (pvarianceQ v)

/-- Embedding of `uncertainty_bounds(v)`:
`pstdev(v) if len(v) > 1 else 0.0`. -/
noncomputable def uncertainty_bounds (v : List ℚ) : ℝ :=
  if v.length > 1 then pstdev v else 0

/-- Python `sorted` on a list of strings (lexicographic order on
code points, matching Python string comparison). -/
def sortStrs (l : List String) : List String := l.insertionSort (· ≤ ·)

/-- The summary dict built by `summarize`: keys `temp_range`,
`rain_range`, `conditions`, `temp_unc`, `rain_unc`. -/
structure Summary where
  temp_range : ℚ × ℚ
  rain_range : ℚ × ℚ
  conditions : List String
  temp_unc : ℝ
  rain_unc : ℝ

/-- Embedding of `summarize(forecasts)`: min/max ranges of temperature
and rainfall, sorted distinct condition strings, and the two
uncertainty values.  On the empty batch Python's `min(temps)` raises
`ValueError`, modelled by `none`. -/
noncomputable def summarize (forecasts : List Forecast) : Option Summary :=
  match pyMin (forecasts.map Forecast.temp), pyMax (forecasts.map Forecast.temp),
        pyMin (forecasts.map Forecast.rain), pyMax (forecasts.map Forecast.rain) with
  | some tmin, some tmax, some rmin, some rmax =>
      some { temp_range := (tmin, tmax), rain_range := (rmin, rmax),
             conditions := sortStrs (forecasts.map Forecast.condition).dedup,
             temp_unc := uncertainty_bounds (forecasts.map Forecast.temp),
             rain_unc := uncertainty_bounds (forecasts.map Forecast.rain) }
  | _, _, _, _ => none

/-- Spec-side population standard deviation, written from the spec's
words: the square root of the mean of the squared deviations from the
mean, with all arithmetic in `ℝ`. -/
noncomputable def popStdDev (v : List ℚ) : ℝ :=
  Real.sqrt
    ((v.map fun x : ℚ =>
        ((x : ℝ) - (v.map fun y : ℚ => (y : ℝ)).sum / (v.length : ℝ)) ^ 2).sum
      / (v.length : ℝ))

/-- A parsed JSON value, the shape `requests.Response.json()` yields. -/
inductive JsonVal where
  | jnull : JsonVal
  | jbool : Bool → JsonVal
  | jnum : ℚ → JsonVal
  | jstr : String → JsonVal
  | jarr : List JsonVal → JsonVal
  | jobj : List (String × JsonVal) → JsonVal

/-- Lookup of a key in a JSON object's field list (first match). -/
def findField (k : String) : List (String × JsonVal) → Option JsonVal
  | [] => none
  | (k1, v) :: rest => if k1 == k then some v else findField k rest

/-- Python `j[k]` on a dict: `none` models the `KeyError` on a missing
key and the `TypeError` of indexing a non-dict, both of which the
adapters absorb via their bare `except`. -/
def JsonVal.getF : JsonVal → String → Option JsonVal
  | .jobj fs, k => findField k fs
  | _, _ => none

/-- Python `j[i]` on a list: `none` models `IndexError`/`TypeError`. -/
def JsonVal.getIdx : JsonVal → Nat → Option JsonVal
  | .jarr xs, i => xs.get? i
  | _, _ => none

/-- Reads a JSON number into the typed model (the adapters store these
values into the numeric fields of the forecast dict). -/
def JsonVal.asNum : JsonVal → Option ℚ
  | .jnum q => some q
  | _ => none

/-- Reads a JSON string into the typed model. -/
def JsonVal.asStr : JsonVal → Option String
  | .jstr s => some s
  | _ => none

/-- Reads a JSON array into the typed model (`for e in xs`). -/
def JsonVal.asArr : JsonVal → Option (List JsonVal)
  | .jarr xs => some xs
  | _ => none

/-- Python `j.get(k, d)` on a dict: the default on a missing key;
`none` models the `AttributeError` of calling `.get` on a non-dict. -/
def jgetD (j : JsonVal) (k : String) (d : JsonVal) : Option JsonVal :=
  match j with
  | .jobj fs => some ((findField k fs).getD d)
  | _ => none

/-- The entry-selection loop of `get_openweather`: the first entry whose
`dt_txt` starts with the target date and contains `12:00:00`.  The
outer `none` models an exception inside the loop (a malformed entry);
`some none` means the loop ran out without a match (Python falls off
the end of the function, returning `None`). -/
def owFindEntry (target : String) : List JsonVal → Option (Option JsonVal)
  | [] => some none
  | e :: es =>
      match e.getF "dt_txt" with
      | none => none
      | some dv =>
          match dv.asStr with
          | none => none
          | some dt =>
              if startsWithL target.data dt.data && strContains dt "12:00:00"
              then some (some e)
              else owFindEntry target es

/-- Embedding of `get_openweather(city)`.  The network response is the
`Option JsonVal` argument (`none` = `retry_get` failed); `target` is
the date string `%Y-%m-%d` of tomorrow that the source computes from
the clock.  Wind is `e["wind"]["speed"]` unchanged (the request asks
for `units=metric`); rain defaults to 0 via `e.get("rain", {}).get("3h", 0)`. -/
def get_openweather (target : String) (r : Option JsonVal) : Option Forecast :=
  match r with
  | none => none
  | some data =>
      match jgetD data "list" (JsonVal.jarr []) with
      | none => none
      | some lv =>
          match lv.asArr with
          | none => none
          | some entries =>
              match owFindEntry target entries with
              | none => none
              | some none => none
              | some (some e) => do
                  let mainv ← e.getF "main"
                  let tempv ← mainv.getF "temp"
                  let temp ← tempv.asNum
                  let rainObj ← jgetD e "rain" (JsonVal.jobj [])
                  let rain3 ← jgetD rainObj "3h" (JsonVal.jnum 0)
                  let rain ← rain3.asNum
                  let weatherv ← e.getF "weather"
                  let w0 ← weatherv.getIdx 0
                  let descv ← w0.getF "description"
                  let cond ← descv.asStr
                  let windv ← e.getF "wind"
                  let speedv ← windv.getF "speed"
                  let wind ← speedv.asNum
                  pure { source := "OpenWeatherMap", temp := temp, rain := rain,
                         condition := cond, wind := wind }

/-- Embedding of `get_weatherapi(city)`: tomorrow's day block at
`["forecast"]["forecastday"][1]["day"]`; wind is
`day["maxwind_mph"] * 0.44704`. -/
def get_weatherapi (r : Option JsonVal) : Option Forecast :=
  match r with
  | none => none
  | some j => do
      let fc ← j.getF "forecast"
      let fd ← fc.getF "forecastday"
      let d1 ← fd.getIdx 1
      let day ← d1.getF "day"
      let tv ← day.getF "avgtemp_c"
      let temp ← tv.asNum
      let rv ← day.getF "totalprecip_mm"
      let rain ← rv.asNum
      let cv ← day.getF "condition"
      let ct ← cv.getF "text"
      let cond ← ct.asStr
      let wv ← day.getF "maxwind_mph"
      let windRaw ← wv.asNum
      pure { source := "WeatherAPI", temp := temp, rain := rain,
             condition := cond, wind := windRaw * (0.44704 : ℚ) }

/-- Embedding of `get_weatherstack(city)`: the `current` block; wind is
`cur["wind_speed"] * 0.277778`. -/
def get_weatherstack (r : Option JsonVal) : Option Forecast :=
  match r with
  | none => none
  | some j => do
      let cur ← j.getF "current"
      let tv ← cur.getF "temperature"
      let temp ← tv.asNum
      let rv ← cur.getF "precip"
      let rain ← rv.asNum
      let wd ← cur.getF "weather_descriptions"
      let w0 ← wd.getIdx 0
      let cond ← w0.asStr
      let wv ← cur.getF "wind_speed"
      let windRaw ← wv.asNum
      pure { source := "Weatherstack", temp := temp, rain := rain,
             condition := cond, wind := windRaw * (0.277778 : ℚ) }

/-- Python equality of a JSON value with a string, as used by
`t in data["hourly"]["time"]` / `.index(t)`. -/
def isJStrEq (t : String) : JsonVal → Bool
  | .jstr s => s == t
  | _ => false

/-- Embedding of `get_openmeteo(lat, lon)`.  `t` is the target string
`%Y-%m-%dT12:00` of tomorrow computed from the clock; the entry at its
index in `hourly.time` supplies all metrics; wind is
`hourly["windspeed_10m"][i]` unchanged; condition is `"Storm"` exactly
for weather codes 95, 96, 99. -/
def get_openmeteo (t : String) (r : Option JsonVal) : Option Forecast :=
  match r with
  | none => none
  | some data =>
      match data.getF "hourly" with
      | none => none
      | some hourly =>
          match hourly.getF "time" with
          | none => none
          | some timesv =>
              match timesv.asArr with
              | none => none
              | some times =>
                  match times.findIdx? (isJStrEq t) with
                  | none => none
                  | some i => do
                      let codesv ← hourly.getF "weathercode"
                      let codev ← codesv.getIdx i
                      let code ← codev.asNum
                      let cond : String :=
                        if code = 95 ∨ code = 96 ∨ code = 99 then "Storm"
                        else "Clear or Cloudy"
                      let tempsv ← hourly.getF "temperature_2m"
                      let tempv ← tempsv.getIdx i
                      let temp ← tempv.asNum
                      let rainsv ← hourly.getF "precipitation"
                      let rainv ← rainsv.getIdx i
                      let rain ← rainv.asNum
                      let windsv ← hourly.getF "windspeed_10m"
                      let windv ← windsv.getIdx i
                      let wind ← windv.asNum
                      pure { source := "Open-Meteo", temp := temp, rain := rain,
                             condition := cond, wind := wind }

/-- Embedding of `adaptive_recommendation(cond, label)`.  The source
draws `random.sample(..., 2)` from the rainy or sunny suggestion list;
the unseeded randomness is exposed here as the two sample parameters,
joined with `", "` exactly as the source does.  `cond` is `None` or a
string; in the non-Low branches `cond.lower()` on `None` would raise,
modelled by `none`. -/
def adaptive_recommendation (cond : Option String) (label : String)
    (sampleRainy sampleSunny : List String) : Option String :=
  if label == "Low" then some "Forecast uncertain. Prepare for all conditions."
  else
    match cond with
    | none => none
    | some c =>
        if strContains (lowerStr c) "rain" || strContains (lowerStr c) "storm"
        then some (String.intercalate ", " sampleRainy)
        else some (String.intercalate ", " sampleSunny)

/-- A well-formed WeatherAPI response fragment used as a test vector. -/
def waJ : JsonVal :=
  .jobj [("forecast", .jobj [("forecastday", .jarr [.jnull,
    .jobj [("day", .jobj [("avgtemp_c", .jnum 25), ("totalprecip_mm", .jnum 5),
      ("condition", .jobj [("text", .jstr "Sunny")]), ("maxwind_mph", .jnum 10)])]])])]

/-- A well-formed Weatherstack response fragment used as a test vector. -/
def wsJ : JsonVal :=
  .jobj [("current", .jobj [("temperature", .jnum 27), ("precip", .jnum 2),
    ("weather_descriptions", .jarr [.jstr "Cloudy"]), ("wind_speed", .jnum 18)])]

/-- An OpenWeatherMap forecast entry for 2025-01-01 noon, with no
`rain` key (exercising the `.get` defaults). -/
def owEntry : JsonVal :=
  .jobj [("dt_txt", .jstr "2025-01-01 12:00:00"),
         ("main", .jobj [("temp", .jnum 24)]),
         ("weather", .jarr [.jobj [("description", .jstr "light rain")]]),
         ("wind", .jobj [("speed", .jnum 6)])]

/-- An OpenWeatherMap response holding just `owEntry`. -/
def owJ : JsonVal := .jobj [("list", .jarr [owEntry])]

/-- An Open-Meteo response fragment with one hourly slot carrying
weather code 95 (storm). -/
def omJ : JsonVal :=
  .jobj [("hourly", .jobj [
    ("time", .jarr [.jstr "2025-01-01T12:00"]),
    ("weathercode", .jarr [.jnum 95]),
    ("temperature_2m", .jarr [.jnum 26]),
    ("precipitation", .jarr [.jnum 1]),
    ("windspeed_10m", .jarr [.jnum 7])])]

/-- C1: for every pair of forecasts, `weighted_confidence` equals the
clamp of `100 - (|Δtemp| * 4 + |Δrain| * 5)` to `[0, 100]`, and in
particular the score always lies in `[0, 100]`. -/
theorem weighted_confidence_spec (f1 f2 : Forecast) :
    weighted_confidence f1 f2
      = clampQ (100 - (|f1.temp - f2.temp| * 4 + |f1.rain - f2.rain| * 5)) 0 100
    ∧ 0 ≤ weighted_confidence f1 f2 ∧ weighted_confidence f1 f2 ≤ 100 := by
  refine ⟨rfl, le_max_left _ _, ?_⟩
  exact max_le (by norm_num) (min_le_right _ _)

/-- C3: `confidence_label` returns `"High"` exactly on scores `≥ 85`,
`"Moderate"` exactly on `60 ≤ s < 85`, `"Low"` exactly on `s < 60`;
the lower bound of each band is inclusive (85 maps to High, 60 to
Moderate). -/
theorem confidence_label_bands (s : ℚ) :
    (confidence_label s = "High" ↔ 85 ≤ s)
    ∧ (confidence_label s = "Moderate" ↔ 60 ≤ s ∧ s < 85)
    ∧ (confidence_label s = "Low" ↔ s < 60)
    ∧ confidence_label (85 : ℚ) = "High"
    ∧ confidence_label (60 : ℚ) = "Moderate" := by
  unfold confidence_label
  refine ⟨?_, ?_, ?_, by norm_num, by norm_num⟩ <;>
    split_ifs with h1 h2 <;> simp_all <;> linarith

lemma startsWithL_self_append (p rest : List Char) :
    startsWithL p (p ++ rest) = true := by
  induction p with
  | nil => rfl
  | cons c cs ih => simp [startsWithL, ih]

lemma containsL_of_startsWithL (pat l : List Char)
    (h : startsWithL pat l = true) : containsL pat l = true := by
  cases l with
  | nil => simpa [containsL] using h
  | cons c cs => simp [containsL, h]

lemma containsL_append_right (pat xs ys : List Char)
    (h : containsL pat ys = true) : containsL pat (xs ++ ys) = true := by
  induction xs with
  | nil => simpa using h
  | cons x xs ih => simp [containsL, ih]

lemma strContains_middle (a pat b : String) :
    strContains (a ++ pat ++ b) pat = true := by
  unfold strContains
  have hdata : (a ++ pat ++ b).data = a.data ++ (pat.data ++ b.data) := by
    simp [String.data_append, List.append_assoc]
  rw [hdata]
  exact containsL_append_right _ _ _
    (containsL_of_startsWithL _ _ (startsWithL_self_append _ _))

/-- C2: `detect_severe` applies its rules in order, first match wins:
a (truthy) condition containing storm/cyclone case-insensitively gives
the storm alert; otherwise rainfall above 10 gives the heavy-rainfall
alert; otherwise wind above 10 gives an alert containing the wind value
rounded to one decimal; otherwise not severe with no message. -/
theorem detect_severe_rules (c : String) (r w : ℚ) :
    ((strContains (lowerStr c) "storm" || strContains (lowerStr c) "cyclone") = true →
      detect_severe (some c) r w = (true, some stormMsg))
    ∧ ((strContains (lowerStr c) "storm" || strContains (lowerStr c) "cyclone") = false →
        10 < r → detect_severe (some c) r w = (true, some heavyRainMsg))
    ∧ ((strContains (lowerStr c) "storm" || strContains (lowerStr c) "cyclone") = false →
        ¬ (10 < r) → 10 < w →
        detect_severe (some c) r w = (true, some (strongWindMsg w))
        ∧ strContains (strongWindMsg w) (fmtOneDec w) = true)
    ∧ ((strContains (lowerStr c) "storm" || strContains (lowerStr c) "cyclone") = false →
        ¬ (10 < r) → ¬ (10 < w) →
        detect_severe (some c) r w = (false, none)) := by
  refine ⟨fun h => ?_, fun h hr => ?_, fun h hr hw => ⟨?_, ?_⟩, fun h hr hw => ?_⟩
  · by_cases hc : c = ""
    · subst hc; exact absurd h (by decide)
    · simp [detect_severe, condHasStormWord, hc, h]
  · simp [detect_severe, condHasStormWord, h, hr]
  · simp [detect_severe, condHasStormWord, h, hr, hw]
  · exact strContains_middle _ _ _
  · simp [detect_severe, condHasStormWord, h, hr, hw]

/-- C2 witness: the spec example `detectSeverity("Clear skies", 0, 12.3)`
yields severe with the strong-wind message containing `12.3`. -/
theorem detect_severe_rules_witness :
    (strContains (lowerStr "Clear skies") "storm"
      || strContains (lowerStr "Clear skies") "cyclone") = false
    ∧ ¬ ((10 : ℚ) < 0) ∧ (10 : ℚ) < 123 / 10
    ∧ (detect_severe (some "Clear skies") 0 (123 / 10)
        = (true, some (strongWindMsg (123 / 10)))
      ∧ strContains (strongWindMsg (123 / 10)) (fmtOneDec (123 / 10)) = true)
    ∧ fmtOneDec (123 / 10) = "12.3" :=
  ⟨by decide, by norm_num, by norm_num,
   (detect_severe_rules "Clear skies" 0 (123 / 10)).2.2.1 (by decide)
     (by norm_num) (by norm_num),
   by
     have h : round ((123 / 10 : ℚ) * 10) = 123 := by norm_num [round_eq]
     simp only [fmtOneDec, h]
     rfl⟩

/-- C10: `detect_severe` is total on a falsy condition (`None` or the
empty string): the storm-word rule is skipped and classification falls
through to the rainfall and wind thresholds. -/
theorem detect_severe_falsy_condition (r w : ℚ) :
    detect_severe none r w = detect_severe (some "") r w
    ∧ condHasStormWord none = false
    ∧ condHasStormWord (some "") = false
    ∧ (10 < r → detect_severe none r w = (true, some heavyRainMsg))
    ∧ (¬ (10 < r) → 10 < w →
        detect_severe none r w = (true, some (strongWindMsg w)))
    ∧ (¬ (10 < r) → ¬ (10 < w) → detect_severe none r w = (false, none)) := by
  refine ⟨by simp [detect_severe, condHasStormWord], rfl, by decide,
    fun hr => ?_, fun hr hw => ?_, fun hr hw => ?_⟩
  · simp [detect_severe, condHasStormWord, hr]
  · simp [detect_severe, condHasStormWord, hr, hw]
  · simp [detect_severe, condHasStormWord, hr, hw]

/-- C10 witness: with an absent condition, no rain and 12.3 m/s wind,
`detect_severe` classifies by the wind threshold without failing. -/
theorem detect_severe_falsy_condition_witness :
    ¬ ((10 : ℚ) < 0) ∧ (10 : ℚ) < 123 / 10
    ∧ detect_severe none 0 (123 / 10) = (true, some (strongWindMsg (123 / 10))) :=
  ⟨by norm_num, by norm_num,
   (detect_severe_falsy_condition 0 (123 / 10)).2.2.2.2.1 (by norm_num) (by norm_num)⟩

lemma castQ_list_sum (l : List ℚ) :
    ((l.sum : ℚ) : ℝ) = (l.map fun y : ℚ => (y : ℝ)).sum := by
  induction l with
  | nil => simp
  | cons a t ih => simp [ih]

lemma pstdev_eq_popStdDev (v : List ℚ) : pstdev v = popStdDev v := by
  unfold pstdev popStdDev pvarianceQ
  congr 1
  rw [Rat.cast_div, castQ_list_sum, List.map_map]
  congr 1
  refine congrArg List.sum (List.map_congr_left fun x _ => ?_)
  simp only [Function.comp_apply, listMean]
  push_cast [castQ_list_sum]
  ring

lemma foldl_min_mem (x : ℚ) (xs : List ℚ) : xs.foldl min x ∈ x :: xs := by
  induction xs generalizing x with
  | nil => simp
  | cons a t ih =>
      rw [List.foldl_cons]
      rcases List.mem_cons.1 (ih (min x a)) with h1 | h1
      · rcases min_choice x a with hm | hm <;> rw [h1, hm] <;> simp
      · simp [h1]

lemma foldl_min_le (x : ℚ) (xs : List ℚ) : ∀ y ∈ x :: xs, xs.foldl min x ≤ y := by
  induction xs generalizing x with
  | nil =>
      intro y hy
      simp only [List.mem_cons, List.not_mem_nil, or_false] at hy
      simp [hy]
  | cons a t ih =>
      intro y hy
      rw [List.foldl_cons]
      have hhead := ih (min x a) (min x a) (List.mem_cons_self _ _)
      rcases List.mem_cons.1 hy with rfl | hy1
      · exact le_trans hhead (min_le_left _ _)
      · rcases List.mem_cons.1 hy1 with rfl | hy2
        · exact le_trans hhead (min_le_right _ _)
        · exact ih (min x a) y (List.mem_cons_of_mem _ hy2)

lemma foldl_max_mem (x : ℚ) (xs : List ℚ) : xs.foldl max x ∈ x :: xs := by
  induction xs generalizing x with
  | nil => simp
  | cons a t ih =>
      rw [List.foldl_cons]
      rcases List.mem_cons.1 (ih (max x a)) with h1 | h1
      · rcases max_choice x a with hm | hm <;> rw [h1, hm] <;> simp
      · simp [h1]

lemma foldl_max_ge (x : ℚ) (xs : List ℚ) : ∀ y ∈ x :: xs, y ≤ xs.foldl max x := by
  induction xs generalizing x with
  | nil =>
      intro y hy
      simp only [List.mem_cons, List.not_mem_nil, or_false] at hy
      simp [hy]
  | cons a t ih =>
      intro y hy
      rw [List.foldl_cons]
      have hhead := ih (max x a) (max x a) (List.mem_cons_self _ _)
      rcases List.mem_cons.1 hy with rfl | hy1
      · exact le_trans (le_max_left _ _) hhead
      · rcases List.mem_cons.1 hy1 with rfl | hy2
        · exact le_trans (le_max_right _ _) hhead
        · exact ih (max x a) y (List.mem_cons_of_mem _ hy2)

lemma unc_eq (f : Forecast) (t : List Forecast) (proj : Forecast → ℚ) :
    uncertainty_bounds ((f :: t).map proj)
      = if t = [] then (0 : ℝ) else popStdDev ((f :: t).map proj) := by
  cases t with
  | nil => simp [uncertainty_bounds]
  | cons a u => simp [uncertainty_bounds, pstdev_eq_popStdDev]

/-- C4: on every non-empty batch `f :: t`, `summarize` succeeds; the
temperature and rainfall ranges are the plain min and max of the batch;
the conditions are the sorted distinct condition strings; and each
uncertainty is the population standard deviation for two or more
elements and exactly 0 for a singleton batch (whose ranges then
degenerate to the single sample by the min/max conjuncts). -/
theorem summarize_nonempty_spec (f : Forecast) (t : List Forecast) :
    ∃ s, summarize (f :: t) = some s
    ∧ s.temp_range.1 ∈ (f :: t).map Forecast.temp
    ∧ (∀ x ∈ (f :: t).map Forecast.temp, s.temp_range.1 ≤ x)
    ∧ s.temp_range.2 ∈ (f :: t).map Forecast.temp
    ∧ (∀ x ∈ (f :: t).map Forecast.temp, x ≤ s.temp_range.2)
    ∧ s.rain_range.1 ∈ (f :: t).map Forecast.rain
    ∧ (∀ x ∈ (f :: t).map Forecast.rain, s.rain_range.1 ≤ x)
    ∧ s.rain_range.2 ∈ (f :: t).map Forecast.rain
    ∧ (∀ x ∈ (f :: t).map Forecast.rain, x ≤ s.rain_range.2)
    ∧ List.Sorted (· ≤ ·) s.conditions
    ∧ s.conditions.Nodup
    ∧ (∀ c, c ∈ s.conditions ↔ c ∈ (f :: t).map Forecast.condition)
    ∧ s.temp_unc = (if t = [] then (0 : ℝ) else popStdDev ((f :: t).map Forecast.temp))
    ∧ s.rain_unc = (if t = [] then (0 : ℝ) else popStdDev ((f :: t).map Forecast.rain)) := by
  refine ⟨_, rfl, ?_, ?_, ?_, ?_, ?_, ?_, ?_, ?_, ?_, ?_, ?_, ?_, ?_⟩
  · exact foldl_min_mem _ _
  · exact foldl_min_le _ _
  · exact foldl_max_mem _ _
  · exact foldl_max_ge _ _
  · exact foldl_min_mem _ _
  · exact foldl_min_le _ _
  · exact foldl_max_mem _ _
  · exact foldl_max_ge _ _
  · exact List.sorted_insertionSort _ _
  · exact ((List.perm_insertionSort _ _).nodup_iff).2 (List.nodup_dedup _)
  · intro c
    exact ((List.perm_insertionSort _ _).mem_iff).trans (List.mem_dedup)
  · exact unc_eq f t Forecast.temp
  · exact unc_eq f t Forecast.rain

/-- C4 witness: the theorem applied to the spec's two-element example
batch (20 °C / 0 mm / Clear and 25 °C / 5 mm / Rain). -/
theorem summarize_nonempty_spec_witness :
    ∃ s, summarize
        [⟨"OpenWeatherMap", 20, 0, "Clear", 1⟩, ⟨"WeatherAPI", 25, 5, "Rain", 2⟩]
        = some s
    ∧ s.temp_range.1 ∈ [(20 : ℚ), 25] ∧ (∀ x ∈ [(20 : ℚ), 25], s.temp_range.1 ≤ x)
    ∧ s.temp_range.2 ∈ [(20 : ℚ), 25] ∧ (∀ x ∈ [(20 : ℚ), 25], x ≤ s.temp_range.2)
    ∧ s.rain_range.1 ∈ [(0 : ℚ), 5] ∧ (∀ x ∈ [(0 : ℚ), 5], s.rain_range.1 ≤ x)
    ∧ s.rain_range.2 ∈ [(0 : ℚ), 5] ∧ (∀ x ∈ [(0 : ℚ), 5], x ≤ s.rain_range.2)
    ∧ List.Sorted (· ≤ ·) s.conditions
    ∧ s.conditions.Nodup
    ∧ (∀ c, c ∈ s.conditions ↔ c ∈ ["Clear", "Rain"])
    ∧ s.temp_unc = popStdDev [(20 : ℚ), 25]
    ∧ s.rain_unc = popStdDev [(0 : ℚ), 5] := by
  have h := summarize_nonempty_spec ⟨"OpenWeatherMap", 20, 0, "Clear", 1⟩
    [⟨"WeatherAPI", 25, 5, "Rain", 2⟩]
  simpa using h

/-- C5 counterexample: on the empty batch `summarize` does not return a
result at all — Python's `min` raises on an empty sequence, modelled by
`none` — contradicting the claim that it returns zero uncertainties. -/
theorem summarize_empty_counterexample : summarize ([] : List Forecast) = none := rfl

/-- C5 amended: `summarize` applied to the empty batch fails
(`min(temps)` raises `ValueError`, surfaced as an absent result) rather
than returning a record; it is on singleton batches that the
uncertainty fields are 0 and the ranges collapse to the single sample. -/
theorem summarize_empty_amended :
    summarize ([] : List Forecast) = none
    ∧ ∀ f : Forecast, summarize [f]
        = some { temp_range := (f.temp, f.temp), rain_range := (f.rain, f.rain),
                 conditions := [f.condition], temp_unc := 0, rain_unc := 0 } := by
  refine ⟨rfl, fun f => ?_⟩
  simp [summarize, pyMin, pyMax, sortStrs, uncertainty_bounds]

/-- C6: each Normalizer's wind conversion on a successfully parsed
response: WeatherAPI multiplies the provider's mph value by 0.44704,
Weatherstack multiplies the provider's km/h value by 0.277778, and
OpenWeatherMap (metric request) and Open-Meteo pass the provider's
value through unchanged. -/
theorem normalizer_wind_units :
    (∀ j fc fd d1 day tv rv cv ct wv tq rq cs wq,
      JsonVal.getF j "forecast" = some fc →
      JsonVal.getF fc "forecastday" = some fd →
      JsonVal.getIdx fd 1 = some d1 →
      JsonVal.getF d1 "day" = some day →
      JsonVal.getF day "avgtemp_c" = some tv → JsonVal.asNum tv = some tq →
      JsonVal.getF day "totalprecip_mm" = some rv → JsonVal.asNum rv = some rq →
      JsonVal.getF day "condition" = some cv →
      JsonVal.getF cv "text" = some ct → JsonVal.asStr ct = some cs →
      JsonVal.getF day "maxwind_mph" = some wv → JsonVal.asNum wv = some wq →
      get_weatherapi (some j)
        = some { source := "WeatherAPI", temp := tq, rain := rq,
                 condition := cs, wind := wq * (0.44704 : ℚ) })
    ∧ (∀ j cur tv rv wd w0 wv tq rq cs wq,
      JsonVal.getF j "current" = some cur →
      JsonVal.getF cur "temperature" = some tv → JsonVal.asNum tv = some tq →
      JsonVal.getF cur "precip" = some rv → JsonVal.asNum rv = some rq →
      JsonVal.getF cur "weather_descriptions" = some wd →
      JsonVal.getIdx wd 0 = some w0 → JsonVal.asStr w0 = some cs →
      JsonVal.getF cur "wind_speed" = some wv → JsonVal.asNum wv = some wq →
      get_weatherstack (some j)
        = some { source := "Weatherstack", temp := tq, rain := rq,
                 condition := cs, wind := wq * (0.277778 : ℚ) })
    ∧ (∀ target data lv entries e mainv tempv rainObj rain3 weatherv w0 descv windv speedv tq rq cs wq,
      jgetD data "list" (JsonVal.jarr []) = some lv →
      JsonVal.asArr lv = some entries →
      owFindEntry target entries = some (some e) →
      JsonVal.getF e "main" = some mainv →
      JsonVal.getF mainv "temp" = some tempv → JsonVal.asNum tempv = some tq →
      jgetD e "rain" (JsonVal.jobj []) = some rainObj →
      jgetD rainObj "3h" (JsonVal.jnum 0) = some rain3 →
      JsonVal.asNum rain3 = some rq →
      JsonVal.getF e "weather" = some weatherv →
      JsonVal.getIdx weatherv 0 = some w0 →
      JsonVal.getF w0 "description" = some descv → JsonVal.asStr descv = some cs →
      JsonVal.getF e "wind" = some windv →
      JsonVal.getF windv "speed" = some speedv → JsonVal.asNum speedv = some wq →
      get_openweather target (some data)
        = some { source := "OpenWeatherMap", temp := tq, rain := rq,
                 condition := cs, wind := wq })
    ∧ (∀ t data hourly timesv times i codesv codev tempsv tempv rainsv rainv windsv windv cq tq rq wq,
      JsonVal.getF data "hourly" = some hourly →
      JsonVal.getF hourly "time" = some timesv →
      JsonVal.asArr timesv = some times →
      List.findIdx? (isJStrEq t) times = some i →
      JsonVal.getF hourly "weathercode" = some codesv →
      JsonVal.getIdx codesv i = some codev → JsonVal.asNum codev = some cq →
      JsonVal.getF hourly "temperature_2m" = some tempsv →
      JsonVal.getIdx tempsv i = some tempv → JsonVal.asNum tempv = some tq →
      JsonVal.getF hourly "precipitation" = some rainsv →
      JsonVal.getIdx rainsv i = some rainv → JsonVal.asNum rainv = some rq →
      JsonVal.getF hourly "windspeed_10m" = some windsv →
      JsonVal.getIdx windsv i = some windv → JsonVal.asNum windv = some wq →
      get_openmeteo t (some data)
        = some { source := "Open-Meteo", temp := tq, rain := rq,
                 condition := if cq = 95 ∨ cq = 96 ∨ cq = 99 then "Storm"
                              else "Clear or Cloudy",
                 wind := wq }) := by
  refine ⟨?_, ?_, ?_, ?_⟩
  · intro j fc fd d1 day tv rv cv ct wv tq rq cs wq h1 h2 h3 h4 h5 h6 h7 h8 h9 h10 h11 h12 h13
    simp [get_weatherapi, h1, h2, h3, h4, h5, h6, h7, h8, h9, h10, h11, h12, h13]
  · intro j cur tv rv wd w0 wv tq rq cs wq h1 h2 h3 h4 h5 h6 h7 h8 h9 h10
    simp [get_weatherstack, h1, h2, h3, h4, h5, h6, h7, h8, h9, h10]
  · intro target data lv entries e mainv tempv rainObj rain3 weatherv w0 descv windv speedv tq rq cs wq
      h1 h2 h3 h4 h5 h6 h7 h8 h9 h10 h11 h12 h13 h14 h15 h16
    simp [get_openweather, h1, h2, h3, h4, h5, h6, h7, h8, h9, h10, h11, h12, h13, h14, h15, h16]
  · intro t data hourly timesv times i codesv codev tempsv tempv rainsv rainv windsv windv cq tq rq wq
      h1 h2 h3 h4 h5 h6 h7 h8 h9 h10 h11 h12 h13 h14 h15 h16
    simp [get_openmeteo, h1, h2, h3, h4, h5, h6, h7, h8, h9, h10, h11, h12, h13, h14, h15, h16]

/-- C6 witness: the four adapters applied to well-formed concrete
responses: mph and km/h values are scaled, metric values pass through. -/
theorem normalizer_wind_units_witness :
    get_weatherapi (some waJ)
      = some { source := "WeatherAPI", temp := 25, rain := 5,
               condition := "Sunny", wind := 10 * (0.44704 : ℚ) }
    ∧ get_weatherstack (some wsJ)
      = some { source := "Weatherstack", temp := 27, rain := 2,
               condition := "Cloudy", wind := 18 * (0.277778 : ℚ) }
    ∧ get_openweather "2025-01-01" (some owJ)
      = some { source := "OpenWeatherMap", temp := 24, rain := 0,
               condition := "light rain", wind := 6 }
    ∧ get_openmeteo "2025-01-01T12:00" (some omJ)
      = some { source := "Open-Meteo", temp := 26, rain := 1,
               condition := "Storm", wind := 7 } := by
  refine ⟨?_, ?_, ?_, ?_⟩
  · exact normalizer_wind_units.1 waJ _ _ _ _ _ _ _ _ _ _ _ _ _
      rfl rfl rfl rfl rfl rfl rfl rfl rfl rfl rfl rfl rfl
  · exact normalizer_wind_units.2.1 wsJ _ _ _ _ _ _ _ _ _ _
      rfl rfl rfl rfl rfl rfl rfl rfl rfl rfl
  · exact normalizer_wind_units.2.2.1 "2025-01-01" owJ _ _ _ _ _ _ _ _ _ _ _ _ _ _ _ _
      rfl rfl rfl rfl rfl rfl rfl rfl rfl rfl rfl rfl rfl rfl rfl rfl
  · have h := normalizer_wind_units.2.2.2 "2025-01-01T12:00" omJ _ _ _ 0 _ _ _ _ _ _ _ _
      (95 : ℚ) 26 1 7 rfl rfl rfl rfl rfl rfl rfl rfl rfl rfl rfl rfl rfl rfl rfl rfl
    simpa using h

/-- C7: every kind of Normalizer failure is absorbed and surfaced as an
absent result: a failed network call (`retry_get` returning `None`), a
missing or malformed field at any level, and a missing target-time
entry all yield `none`; in the embedding the adapters are total
functions into `Option`, so no exception can reach the caller. -/
theorem normalizer_failure_absorbed :
    (∀ target, get_openweather target none = none)
    ∧ get_weatherapi none = none
    ∧ get_weatherstack none = none
    ∧ (∀ t, get_openmeteo t none = none)
    ∧ (∀ j, JsonVal.getF j "forecast" = none → get_weatherapi (some j) = none)
    ∧ (∀ j fc, JsonVal.getF j "forecast" = some fc →
        JsonVal.getF fc "forecastday" = none → get_weatherapi (some j) = none)
    ∧ (∀ j, JsonVal.getF j "current" = none → get_weatherstack (some j) = none)
    ∧ (∀ target j, jgetD j "list" (JsonVal.jarr []) = none →
        get_openweather target (some j) = none)
    ∧ (∀ target j lv entries, jgetD j "list" (JsonVal.jarr []) = some lv →
        JsonVal.asArr lv = some entries → owFindEntry target entries = some none →
        get_openweather target (some j) = none)
    ∧ (∀ t j, JsonVal.getF j "hourly" = none → get_openmeteo t (some j) = none)
    ∧ (∀ t j hourly timesv times, JsonVal.getF j "hourly" = some hourly →
        JsonVal.getF hourly "time" = some timesv → JsonVal.asArr timesv = some times →
        List.findIdx? (isJStrEq t) times = none → get_openmeteo t (some j) = none) := by
  refine ⟨fun target => rfl, rfl, rfl, fun t => rfl, ?_, ?_, ?_, ?_, ?_, ?_, ?_⟩
  · intro j h1
    simp [get_weatherapi, h1]
  · intro j fc h1 h2
    simp [get_weatherapi, h1, h2]
  · intro j h1
    simp [get_weatherstack, h1]
  · intro target j h1
    simp [get_openweather, h1]
  · intro target j lv entries h1 h2 h3
    simp [get_openweather, h1, h2, h3]
  · intro t j h1
    simp [get_openmeteo, h1]
  · intro t j hourly timesv times h1 h2 h3 h4
    simp [get_openmeteo, h1, h2, h3, h4]

/-- C7 witness: concrete failures — a dead network call, a JSON value
with no usable fields, and responses missing the target-time entry —
all produce `none`. -/
theorem normalizer_failure_absorbed_witness :
    get_openweather "2025-01-01" none = none
    ∧ get_weatherapi none = none
    ∧ JsonVal.getF JsonVal.jnull "forecast" = none
    ∧ get_weatherapi (some JsonVal.jnull) = none
    ∧ owFindEntry "2025-01-02" [owEntry] = some none
    ∧ get_openweather "2025-01-02" (some owJ) = none
    ∧ List.findIdx? (isJStrEq "2025-01-02T12:00")
        [JsonVal.jstr "2025-01-01T12:00"] = none
    ∧ get_openmeteo "2025-01-02T12:00" (some omJ) = none :=
  ⟨normalizer_failure_absorbed.1 "2025-01-01",
   normalizer_failure_absorbed.2.1,
   rfl,
   normalizer_failure_absorbed.2.2.2.2.1 JsonVal.jnull rfl,
   rfl,
   normalizer_failure_absorbed.2.2.2.2.2.2.2.2.1 "2025-01-02" owJ _ _ rfl rfl rfl,
   rfl,
   normalizer_failure_absorbed.2.2.2.2.2.2.2.2.2.2 "2025-01-02T12:00" omJ _ _ _
     rfl rfl rfl rfl⟩

/-- C8: with the `"Low"` confidence label, `adaptive_recommendation`
returns the one fixed uncertainty message, whatever the condition text
(present, absent, or anything else) and whatever the random samples;
the condition is never inspected in that branch. -/
theorem adaptive_recommendation_low_fixed :
    (∀ cond sr ss, adaptive_recommendation cond "Low" sr ss
        = some "Forecast uncertain. Prepare for all conditions.")
    ∧ (∀ c1 c2 sr1 ss1 sr2 ss2,
        adaptive_recommendation c1 "Low" sr1 ss1
          = adaptive_recommendation c2 "Low" sr2 ss2) := by
  exact ⟨fun cond sr ss => rfl, fun c1 c2 sr1 ss1 sr2 ss2 => rfl⟩
